import Mathlib

/-! Verification of the FlowMind task backend.  The file shallowly embeds
the task data model (app/models/task.py, app/schemas/task.py), the task
CRUD, dependency and analytics operations of
app/services/task_service.py, the natural-language parsing fallbacks of
app/services/ai/grok_service.py and
app/services/ai/enhanced_grok_service.py, and the background
schedule-optimization job of app/tasks/ai_tasks.py, and proves or
refutes the frozen specification claims about them. -/

namespace FlowMind

/-- Timestamps are modelled as integers (seconds since an arbitrary
epoch); the source only compares datetime values and adds
day-granularity offsets to them. -/
abbrev Time := Int

/-- Seconds in one day; timedelta(days = n) is modelled as
n * secondsPerDay. -/
def secondsPerDay : Int := 86400

/-- The TaskStatus enum of app/models/task.py. -/
inductive TaskStatus where
  | pending
  | in_progress
  | completed
  | cancelled
  | on_hold
deriving DecidableEq, Repr

/-- The TaskPriority enum of app/models/task.py. -/
inductive TaskPriority where
  | low
  | medium
  | high
  | urgent
deriving DecidableEq, Repr

/-- The columns of the tasks table (app/models/task.py) that the
verified operations read or write; nullable columns are Option-valued. -/
structure Task where
  id : Nat
  user_id : Nat
  title : String
  description : Option String := none
  status : TaskStatus := TaskStatus.pending
  priority : TaskPriority := TaskPriority.medium
  due_date : Option Time := none
  estimated_duration : Option Int := none
  category : Option String := none
  project : Option String := none
  created_at : Time := 0
  updated_at : Option Time := none
  completed_at : Option Time := none
  ai_suggested_time_slot : Option Time := none
deriving DecidableEq, Repr

/-- The TaskUpdate partial-update schema (app/schemas/task.py): a field
left at none is absent from the update (pydantic dict(exclude_unset)).
The service layer additionally passes completed_at (complete_task) and
ai_suggested_time_slot (optimize_task_scheduling) keywords when it
constructs updates; the pydantic v1 schema does not declare those two
fields and silently ignores unknown constructor keywords, so the
source never persists them through update_task.  The embedding carries
them as updatable fields anyway, as the service code is written; no
settled theorem depends on such a write occurring.  Setting a nullable
column explicitly to null is not representable here and is not
exercised by any claim. -/
structure TaskUpdate where
  title : Option String := none
  description : Option String := none
  status : Option TaskStatus := none
  priority : Option TaskPriority := none
  due_date : Option Time := none
  estimated_duration : Option Int := none
  category : Option String := none
  project : Option String := none
  completed_at : Option Time := none
  ai_suggested_time_slot : Option Time := none
deriving DecidableEq, Repr

/-- The setattr loop of TaskService.update_task: every field present in
the update overwrites the task's column. -/
def applyTaskUpdate (t : Task) (u : TaskUpdate) : Task :=
  { t with
    title := u.title.getD t.title
    description := match u.description with | some d => some d | none => t.description
    status := u.status.getD t.status
    priority := u.priority.getD t.priority
    due_date := match u.due_date with | some d => some d | none => t.due_date
    estimated_duration :=
      match u.estimated_duration with | some d => some d | none => t.estimated_duration
    category := match u.category with | some c => some c | none => t.category
    project := match u.project with | some p => some p | none => t.project
    completed_at := match u.completed_at with | some c => some c | none => t.completed_at
    ai_suggested_time_slot :=
      match u.ai_suggested_time_slot with
      | some s => some s
      | none => t.ai_suggested_time_slot }

/-- Row lookup of select(Task).where(Task.id == task_id,
Task.user_id == user_id); id is the primary key, so at most one row
matches in a well-formed store. -/
def findTask (db : List Task) (task_id user_id : Nat) : Option Task :=
  db.find? fun t => t.id == task_id && t.user_id == user_id

/-- TaskService.get_task: owner-scoped lookup, none when the row is
missing or owned by another user.  The source wraps the row into a
TaskResponse; the claims only concern which row, if any, is returned. -/
def get_task (db : List Task) (task_id user_id : Nat) : Option Task :=
  findTask db task_id user_id

/-- TaskService.update_task at a fixed now (datetime.utcnow()):
owner-scoped lookup; apply the partial update; then the
completion-timestamp rule exactly as in the source — set completed_at
when the update's status field is completed and completed_at is still
empty, and clear it whenever the update's status field is anything
other than completed, including absent; finally stamp updated_at.
Returns the updated row (none on a miss) and the new store. -/
def update_task (db : List Task) (task_id : Nat) (u : TaskUpdate) (user_id : Nat)
    (now : Time) : Option Task × List Task :=
  match findTask db task_id user_id with
  | none => (none, db)
  | some t =>
    let t1 := applyTaskUpdate t u
    let t2 :=
      if u.status == some TaskStatus.completed && t1.completed_at == none then
        { t1 with completed_at := some now }
      else if u.status != some TaskStatus.completed then
        { t1 with completed_at := none }
      else t1
    let t3 := { t2 with updated_at := some now }
    (some t3, db.map fun x => if x.id == task_id && x.user_id == user_id then t3 else x)

/-- TaskService.delete_task: owner-scoped lookup; false and an unchanged
store when missing, otherwise the row is removed. -/
def delete_task (db : List Task) (task_id user_id : Nat) : Bool × List Task :=
  match findTask db task_id user_id with
  | none => (false, db)
  | some _ => (true, db.eraseP fun t => t.id == task_id && t.user_id == user_id)

/-- The priority tier map of TaskService._calculate_ai_priority_score. -/
def priority_scores : TaskPriority → Int
  | TaskPriority.low => 25
  | TaskPriority.medium => 50
  | TaskPriority.high => 75
  | TaskPriority.urgent => 95

/-- Python timedelta .days of (due - now): floor division of the
difference by one day. -/
def daysUntilDue (due now : Time) : Int := (due - now).fdiv secondsPerDay

/-- TaskService._calculate_ai_priority_score at a fixed now: tier base
(the initial 50 of the source is overwritten by the tier lookup), a
due-date bonus keyed on the floor day difference, clamped into
[0, 100]. -/
def _calculate_ai_priority_score (task : Task) (now : Time) : Int :=
  let score := priority_scores task.priority
  let score :=
    match task.due_date with
    | none => score
    | some due =>
      let d := daysUntilDue due now
      if d ≤ 1 then score + 20
      else if d ≤ 3 then score + 10
      else if d ≤ 7 then score + 5
      else score
  min (max score 0) 100

/-- TaskService._calculate_ai_complexity_score: base 30, a duration bonus
on thresholds 240/120/60 minutes, a description-length bonus on
thresholds 500/200 characters, clamped into [0, 100].  Python
truthiness: a duration of 0 and an empty description skip their
blocks. -/
def _calculate_ai_complexity_score (task : Task) : Int :=
  let score : Int := 30
  let score :=
    match task.estimated_duration with
    | none => score
    | some d =>
      if d ≠ 0 then
        if d > 240 then score + 40
        else if d > 120 then score + 25
        else if d > 60 then score + 15
        else score
      else score
  let score :=
    match task.description with
    | none => score
    | some s =>
      if s ≠ "" then
        if s.length > 500 then score + 20
        else if s.length > 200 then score + 10
        else score
      else score
  min (max score 0) 100

/-- The priority-score formula exactly as claim C4 words it: a base
mapped from the priority tier (low 25, medium 50, high 75, urgent 95),
plus 20 if the due date is within 1 day, else plus 10 if within 3 days,
else plus 5 if within 7 days, no bonus without a due date, clamped to
[0, 100].  Being within n days is the floor day difference being at
most n, the only day-granularity reading of the source's datetime
arithmetic. -/
def priorityScoreSpec (priority : TaskPriority) (dueDays : Option Int) : Int :=
  let base :=
    match priority with
    | TaskPriority.low => 25
    | TaskPriority.medium => 50
    | TaskPriority.high => 75
    | TaskPriority.urgent => 95
  let bonus :=
    match dueDays with
    | none => 0
    | some d => if d ≤ 1 then 20 else if d ≤ 3 then 10 else if d ≤ 7 then 5 else 0
  min (max (base + bonus) 0) 100

/-- The complexity-score formula exactly as claim C5 words it: base 30,
plus 40 if the estimated duration exceeds 240 minutes, else plus 25 if
it exceeds 120, else plus 15 if it exceeds 60, plus 20 if the
description is longer than 500 characters, else plus 10 if longer than
200, clamped to [0, 100]. -/
def complexityScoreSpec (duration : Option Int) (descLen : Option Nat) : Int :=
  let dBonus :=
    match duration with
    | none => 0
    | some d => if d > 240 then 40 else if d > 120 then 25 else if d > 60 then 15 else 0
  let sBonus :=
    match descLen with
    | none => 0
    | some n => if n > 500 then 20 else if n > 200 then 10 else 0
  min (max (30 + dBonus + sBonus) 0) 100

/-- The optional filter set of TaskService.get_user_tasks.  Python reads
the filters dict with truthiness tests, so an absent key and a falsy
value both deactivate a condition; the boolean filters are the truthy
flags. -/
structure TaskFilters where
  status : Option TaskStatus := none
  priority : Option TaskPriority := none
  category : Option String := none
  project : Option String := none
  due_soon : Bool := false
  overdue : Bool := false
  search : Option String := none
deriving Repr

/-- Case-insensitive SQL ilike containment of term inside hay. -/
def ilikeContains (hay term : String) : Bool :=
  decide (term.toLower.toList <:+: hay.toLower.toList)

/-- The conjunction of conditions TaskService.get_user_tasks appends for
an active filter set, at a fixed now.  An empty category, project or
search string is falsy in Python, which deactivates its condition; an
ilike match against a NULL description is false in SQL. -/
def taskMatchesFilters (f : TaskFilters) (now : Time) (t : Task) : Bool :=
  (match f.status with | none => true | some s => t.status == s) &&
  (match f.priority with | none => true | some p => t.priority == p) &&
  (match f.category with | none => true | some c => c == "" || t.category == some c) &&
  (match f.project with | none => true | some p => p == "" || t.project == some p) &&
  (!f.due_soon ||
    (match t.due_date with
     | none => false
     | some due =>
       decide (due ≤ now + 7 * secondsPerDay) && t.status != TaskStatus.completed)) &&
  (!f.overdue ||
    (match t.due_date with
     | none => false
     | some due => decide (due < now) && t.status != TaskStatus.completed)) &&
  (match f.search with
   | none => true
   | some s =>
     s == "" ||
       (ilikeContains t.title s ||
         (match t.description with | none => false | some d => ilikeContains d s)))

/-- True sorts before false under a descending boolean sort key. -/
def boolDescLE (x y : Bool) : Bool := x || !y

/-- Ascending due-date key; SQL puts null due dates last on an ascending
key. -/
def dueAscLE : Option Time → Option Time → Bool
  | none, none => true
  | none, some _ => false
  | some _, none => true
  | some a, some b => decide (a ≤ b)

/-- The order_by of TaskService.get_user_tasks as a sort relation:
urgent first, then high, then ascending due date, then descending
creation time.  SQL promises some order consistent with the key, which
an insertion sort on this relation produces. -/
def taskSortLE (a b : Task) : Bool :=
  if (a.priority == TaskPriority.urgent) != (b.priority == TaskPriority.urgent) then
    boolDescLE (a.priority == TaskPriority.urgent) (b.priority == TaskPriority.urgent)
  else if (a.priority == TaskPriority.high) != (b.priority == TaskPriority.high) then
    boolDescLE (a.priority == TaskPriority.high) (b.priority == TaskPriority.high)
  else if a.due_date != b.due_date then
    dueAscLE a.due_date b.due_date
  else
    decide (b.created_at ≤ a.created_at)

/-- TaskService.get_user_tasks: owner scope, the filter conditions, the
ordering, then offset/limit pagination; the second component is the
count query over the same conditions without pagination.  The
TaskResponse conversion of the source is dropped: the claims concern
which rows are returned. -/
def get_user_tasks (db : List Task) (user_id : Nat) (skip limit : Nat)
    (filters : Option TaskFilters) (now : Time) : List Task × Nat :=
  let base := db.filter fun t => t.user_id == user_id
  let filtered :=
    match filters with
    | none => base
    | some f => base.filter (taskMatchesFilters f now)
  let sorted := List.insertionSort (fun a b => taskSortLE a b = true) filtered
  ((sorted.drop skip).take limit, filtered.length)

/-- A row of the task_dependencies table: the directed edge
task_id → depends_on_id (app/models/task.py). -/
structure TaskDependency where
  task_id : Nat
  depends_on_id : Nat
deriving DecidableEq, Repr

/-- The tasks and task_dependencies tables together. -/
structure DBState where
  tasks : List Task
  deps : List TaskDependency
deriving DecidableEq, Repr

/-- TaskService._would_create_circular_dependency: the source only looks
for the direct reverse edge depends_on_id → task_id ("Simple
implementation - check direct reverse dependency").  Several matching
rows would make scalar_one_or_none raise instead of returning a row;
either way the insertion does not happen, so both outcomes are
modelled as a positive answer. -/
def _would_create_circular_dependency (deps : List TaskDependency)
    (task_id depends_on_id : Nat) : Bool :=
  deps.any fun d => d.task_id == depends_on_id && d.depends_on_id == task_id

/-- TaskService.add_task_dependency: the id-in-pair query must return
exactly two rows owned by the user (which also rejects
task_id = depends_on_id when ids are unique); then the reverse-edge
check; then the edge row is inserted. -/
def add_task_dependency (st : DBState) (task_id depends_on_id user_id : Nat) :
    Option TaskDependency × DBState :=
  let owned := st.tasks.filter fun t =>
    (t.id == task_id || t.id == depends_on_id) && t.user_id == user_id
  if owned.length ≠ 2 then (none, st)
  else if _would_create_circular_dependency st.deps task_id depends_on_id then (none, st)
  else
    let dep : TaskDependency := { task_id := task_id, depends_on_id := depends_on_id }
    (some dep, { st with deps := st.deps ++ [dep] })

/-- Fold a sequence of add_task_dependency requests, each a triple
(task_id, depends_on_id, user_id), over the store. -/
def runAddDependencies (st : DBState) (reqs : List (Nat × Nat × Nat)) : DBState :=
  reqs.foldl (fun s r => (add_task_dependency s r.1 r.2.1 r.2.2).2) st

/-- Fuel-bounded reachability over the dependency edge set: src reaches
dst through one or more edges; fuel at least the number of edges
suffices for any simple path. -/
def reaches (deps : List TaskDependency) : Nat → Nat → Nat → Bool
  | 0, _, _ => false
  | fuel + 1, src, dst =>
    deps.any fun d =>
      d.task_id == src && (d.depends_on_id == dst || reaches deps fuel d.depends_on_id dst)

/-- The edge set contains no pair of mutually inverse edges; with a = b
this also forbids self-loops. -/
def noTwoCycle (deps : List TaskDependency) : Prop :=
  ∀ d ∈ deps,
    ({ task_id := d.depends_on_id, depends_on_id := d.task_id } : TaskDependency) ∉ deps

instance (deps : List TaskDependency) : Decidable (noTwoCycle deps) := by
  unfold noTwoCycle; infer_instance

/-- Primary-key well-formedness of the tasks table: ids are pairwise
distinct. -/
def tasksHaveDistinctIds (db : List Task) : Prop := (db.map Task.id).Nodup

instance (db : List Task) : Decidable (tasksHaveDistinctIds db) := by
  unfold tasksHaveDistinctIds; infer_instance

/-- The outcome of one AI completion call as the parsing code observes
it: the request raised (an httpx transport failure re-raised as a plain
Exception); the response content failed JSON decoding or key lookup
(json.JSONDecodeError / KeyError); or a parsed JSON object. -/
inductive AICallOutcome (α : Type) where
  | transportError (msg : String)
  | malformedContent
  | parsed (data : α)
deriving DecidableEq, Repr

/-- The JSON object shape both natural-language parsers read fields from
with .get defaults; an absent key is none.  The confidence float is
modelled as a rational, which is exact for the literals involved. -/
structure ParsedTaskJson where
  title : Option String := none
  description : Option String := none
  priority : Option String := none
  due_date : Option String := none
  estimated_duration : Option Int := none
  tags : Option (List String) := none
  dependencies : Option (List String) := none
  subtasks : Option (List String) := none
  confidence : Option ℚ := none
  reasoning : Option String := none
deriving DecidableEq, Repr

/-- GrokService.parse_natural_language_task: the except clause catches
only json.JSONDecodeError and KeyError, returning the basic fallback
dict (title truncated to 100 characters, the description for long
inputs, priority medium — and no confidence key); the plain Exception
raised for a failed AI request is not in that tuple, so it propagates
to the caller (Except.error).  On success the parsed JSON is returned
as-is. -/
def GrokService.parse_natural_language_task (task_input : String)
    (ai : AICallOutcome ParsedTaskJson) : Except String ParsedTaskJson :=
  match ai with
  | AICallOutcome.transportError msg => Except.error ("AI service unavailable: " ++ msg)
  | AICallOutcome.malformedContent =>
    Except.ok
      { title := some (task_input.take 100)
        description := if task_input.length > 100 then some task_input else none
        priority := some ("medium") }
  | AICallOutcome.parsed d => Except.ok d

/-- The TaskParsing dataclass of enhanced_grok_service.py. -/
structure TaskParsing where
  title : String
  description : Option String := none
  priority : String := "medium"
  due_date : Option Time := none
  estimated_duration : Option Int := none
  tags : List String := []
  dependencies : List String := []
  subtasks : List String := []
  ai_confidence : ℚ := 0
  reasoning : String := ""
deriving DecidableEq, Repr

/-- EnhancedGrokService.parse_natural_language_task: every exception —
transport failure and malformed content alike — is caught and the
fallback TaskParsing (confidence 0.3) is returned; on success the
fields are read with .get defaults.  parseDT stands for the source's
_parse_datetime applied to a present due_date string; on an absent one
the source returns None before parsing. -/
def EnhancedGrokService.parse_natural_language_task (task_input : String)
    (parseDT : String → Option Time) (ai : AICallOutcome ParsedTaskJson) : TaskParsing :=
  match ai with
  | AICallOutcome.parsed d =>
    { title := d.title.getD (task_input.take 100)
      description := d.description
      priority := d.priority.getD ("medium")
      due_date := match d.due_date with | none => none | some s => parseDT s
      estimated_duration := d.estimated_duration
      tags := d.tags.getD []
      dependencies := d.dependencies.getD []
      subtasks := d.subtasks.getD []
      ai_confidence := d.confidence.getD (8 / 10 : ℚ)
      reasoning := d.reasoning.getD ("AI parsed task from natural language") }
  | _ =>
    { title := task_input.take 100
      description := if task_input.length > 100 then some task_input else none
      priority := "medium"
      ai_confidence := (3 / 10 : ℚ)
      reasoning := "Fallback parsing due to AI service error" }

/-- The schedule payload TaskService.optimize_task_scheduling reads:
optimization_data.get("suggested_time_slot"), modelled already parsed. -/
structure OptimizationData where
  suggested_time_slot : Option Time := none
deriving DecidableEq, Repr

/-- TaskService.optimize_task_scheduling: the whole body runs inside one
try/except.  Owner-scoped task lookup (plain return on a miss); the AI
call, given as the oracle outcome for this execution, whose
Except.error is an exception reaching the try block (caught and logged,
and since no write precedes the call the store is unchanged); if the
response carries a suggested time slot it is written back through
update_task, otherwise nothing is written. -/
def optimize_task_scheduling (db : List Task) (ai : Except String OptimizationData)
    (task_id user_id : Nat) (now : Time) : List Task :=
  match get_task db task_id user_id with
  | none => db
  | some _ =>
    match ai with
    | Except.error _ => db
    | Except.ok opt =>
      match opt.suggested_time_slot with
      | none => db
      | some slot =>
        (update_task db task_id { ai_suggested_time_slot := some slot } user_id now).2

/-- One entry of the AI response's optimized_schedule list in
optimize_user_schedules; task_id and suggested_time are read with .get
and both must be present (truthy) to be applied.  suggested_time is
modelled already parsed from its ISO string. -/
structure ScheduleSuggestion where
  task_id : Option Nat := none
  suggested_time : Option Time := none
deriving DecidableEq, Repr

/-- The JSON object grok_service.generate_schedule_optimization parses
from the completion, as optimize_user_schedules reads it: the
optimized_schedule key may be absent (the loop reads it with
.get("optimized_schedule", [])), and the fallback dict returned on a
caught exception carries only error and fallback keys. -/
structure GrokScheduleResponse where
  optimized_schedule : Option (List ScheduleSuggestion) := none
  error : Option String := none
  fallback : Bool := false
deriving DecidableEq, Repr

/-- GrokService.generate_schedule_optimization: the whole call — request
and JSON parse — runs inside try/except Exception, so it never raises
to its caller: a failed request or malformed content yields the
fallback dict with error "Optimization failed" and fallback true (and
no optimized_schedule key); a parsed response is returned as-is. -/
def GrokService.generate_schedule_optimization
    (ai : AICallOutcome GrokScheduleResponse) : GrokScheduleResponse :=
  match ai with
  | AICallOutcome.parsed d => d
  | _ => { error := some ("Optimization failed"), fallback := true }

/-- The target set of one user's iteration in optimize_user_schedules:
the user's pending or in-progress tasks that carry a due date, limited
to 20. -/
def userPendingTasks (db : List Task) (user_id : Nat) : List Task :=
  (db.filter fun t =>
    t.user_id == user_id &&
    (t.status == TaskStatus.pending || t.status == TaskStatus.in_progress) &&
    t.due_date != none).take 20

/-- Apply one suggestion: both fields must be present and the task must
be among the rows fetched for this user (the next(...) lookup runs over
that list); then its ai_suggested_time_slot is set. -/
def applySuggestion (fetchedIds : List Nat) (db : List Task) (s : ScheduleSuggestion) :
    List Task :=
  match s.task_id, s.suggested_time with
  | some tid, some time =>
    if fetchedIds.contains tid then
      db.map fun t => if t.id == tid then { t with ai_suggested_time_slot := some time } else t
    else db
  | _, _ => db

/-- One iteration of the per-user loop of the optimize_user_schedules
job (app/tasks/ai_tasks.py).  ai gives each user's AI-call outcome for
this run; the call goes through generate_schedule_optimization, whose
catch-all turns any failure into the fallback dict instead of raising,
so the AI path never reaches the loop's per-user except clause: a
failed user's iteration applies the empty suggestion list, commits,
and still increments optimized_count.  Users with no matching tasks
are skipped without counting.  The loop's except clause only sees
exceptions from the remaining statements (timestamp parsing, commit),
which this embedding does not model — suggested_time is carried
already parsed. -/
def optimizeUserStep (ai : Nat → AICallOutcome GrokScheduleResponse)
    (acc : List Task × Nat) (u : Nat) : List Task × Nat :=
  let tasks := userPendingTasks acc.1 u
  if tasks.isEmpty then acc
  else
    let optimization := GrokService.generate_schedule_optimization (ai u)
    ((optimization.optimized_schedule.getD []).foldl
        (applySuggestion (tasks.map Task.id)) acc.1,
      acc.2 + 1)

/-- The surrounding loop and final report of optimize_user_schedules:
the store is threaded, so each user's writes are committed before the
next user runs; the report is the logged
(optimized_count, total_users) pair. -/
def optimize_user_schedules (ai : Nat → AICallOutcome GrokScheduleResponse)
    (users : List Nat) (db : List Task) : List Task × Nat × Nat :=
  let res := users.foldl (optimizeUserStep ai) (db, 0)
  (res.1, res.2, users.length)

/-- The dict returned by TaskService.get_productivity_analytics; the
rate floats are modelled as rationals. -/
structure ProductivityAnalytics where
  total_tasks : Nat
  completed_tasks : Nat
  pending_tasks : Nat
  overdue_tasks : Nat
  completion_rate : ℚ
  productivity_score : ℚ
  period_days : Nat
deriving DecidableEq, Repr

/-- The tasks of the analytics window: owned by the user and created at
or after now minus the day window. -/
def analyticsWindow (db : List Task) (user_id : Nat) (days : Nat) (now : Time) : List Task :=
  db.filter fun t =>
    t.user_id == user_id && decide (now - (days : Int) * secondsPerDay ≤ t.created_at)

/-- TaskService.get_productivity_analytics at a fixed now: counts over
the window, pending = total - completed, completion_rate =
completed / total * 100 guarded by total > 0 (else 0), and
productivity_score = min(rate, 100). -/
def get_productivity_analytics (db : List Task) (user_id : Nat) (days : Nat) (now : Time) :
    ProductivityAnalytics :=
  let tasks := analyticsWindow db user_id days now
  let total := tasks.length
  let completed := (tasks.filter fun t => t.status == TaskStatus.completed).length
  let overdue := (tasks.filter fun t =>
    match t.due_date with
    | none => false
    | some due => decide (due < now) && t.status != TaskStatus.completed).length
  let rate : ℚ := if total > 0 then (completed : ℚ) / (total : ℚ) * 100 else 0
  { total_tasks := total
    completed_tasks := completed
    pending_tasks := total - completed
    overdue_tasks := overdue
    completion_rate := rate
    productivity_score := min rate 100
    period_days := days }

/-- A completed task whose completion timestamp is set; input of the C2
scenario. -/
def completedReportTask : Task :=
  { id := 1, user_id := 1, title := "report", status := TaskStatus.completed,
    completed_at := some 50 }

/-- Three tasks of one owner (user 7) and no edges; base store of the
dependency scenarios. -/
def depDemoStore : DBState :=
  { tasks :=
      [{ id := 1, user_id := 7, title := "a" }, { id := 2, user_id := 7, title := "b" },
        { id := 3, user_id := 7, title := "c" }]
    deps := [] }

/-- The store after the calls adding the edges 1 → 2 and 2 → 3, both of
which succeed. -/
def depDemoAfterTwo : DBState :=
  (add_task_dependency (add_task_dependency depDemoStore 1 2 7).2 2 3 7).2

/-- The overdue pending task of user 1 in the filter scenario. -/
def overdueDemoTask : Task :=
  { id := 1, user_id := 1, title := "x", due_date := some 10,
    status := TaskStatus.pending }

/-- Five tasks across two owners for the filter scenarios: one overdue
pending task of user 1, one completed task, one without a due date, one
of another owner, and one due beyond a week. -/
def filterDemoDb : List Task :=
  [overdueDemoTask,
    { id := 2, user_id := 1, title := "y", due_date := some 10,
      status := TaskStatus.completed },
    { id := 3, user_id := 1, title := "z", due_date := none },
    { id := 4, user_id := 2, title := "w", due_date := some 10 },
    { id := 5, user_id := 1, title := "v", due_date := some (100 + 8 * 86400) }]

/-- Three owners with one pending due task each for the background-job
scenario. -/
def jobDemoDb : List Task :=
  [{ id := 11, user_id := 1, title := "a", due_date := some 5,
      status := TaskStatus.pending },
    { id := 12, user_id := 2, title := "b", due_date := some 5,
      status := TaskStatus.in_progress },
    { id := 13, user_id := 3, title := "c", due_date := some 5,
      status := TaskStatus.pending }]

/-- A per-user AI oracle for the job scenario: the completion request
for user 2 fails in transit, while the others return one slot
suggestion for that user's task. -/
def jobDemoAi : Nat → AICallOutcome GrokScheduleResponse := fun n =>
  if n = 2 then AICallOutcome.transportError ("AI request failed")
  else AICallOutcome.parsed
    { optimized_schedule := some [{ task_id := some (10 + n), suggested_time := some 1000 }] }

end FlowMind

namespace FlowMind

/-- C4: for every task and instant, the AI priority score equals the
claimed formula — the base mapped from the priority tier (low 25,
medium 50, high 75, urgent 95) plus 20 if the due date is within 1
floor-day, else 10 if within 3, else 5 if within 7, no bonus without a
due date, clamped to [0, 100] — and, being a Lean function of priority
and due date alone, it is deterministic and always lies in [0, 100]. -/
theorem ai_priority_score_matches_spec_and_bounded (task : Task) (now : Time) :
    _calculate_ai_priority_score task now
        = priorityScoreSpec task.priority (task.due_date.map fun due => daysUntilDue due now)
      ∧ 0 ≤ _calculate_ai_priority_score task now
      ∧ _calculate_ai_priority_score task now ≤ 100 := by
  rcases hd : task.due_date with _ | due <;>
    rcases hp : task.priority with _ | _ | _ | _ <;>
      simp only [_calculate_ai_priority_score, priorityScoreSpec, priority_scores, hd, hp,
        Option.map_none', Option.map_some'] <;>
      omega

/-- C5: for every task, the AI complexity score equals the claimed
formula — base 30, plus 40 if the estimated duration exceeds 240
minutes, else 25 if it exceeds 120, else 15 if it exceeds 60, plus 20
if the description is longer than 500 characters, else 10 if longer
than 200, clamped to [0, 100] — and always lies in [0, 100]. -/
theorem ai_complexity_score_matches_spec_and_bounded (task : Task) :
    _calculate_ai_complexity_score task
        = complexityScoreSpec task.estimated_duration (task.description.map String.length)
      ∧ 0 ≤ _calculate_ai_complexity_score task
      ∧ _calculate_ai_complexity_score task ≤ 100 := by
  rcases hd : task.estimated_duration with _ | dur <;>
    rcases hs : task.description with _ | s <;>
      simp only [_calculate_ai_complexity_score, complexityScoreSpec, hd, hs,
        Option.map_none', Option.map_some']
  · omega
  · by_cases h : s = ""
    · subst h; simp only [String.length_empty]; split_ifs <;> omega
    · simp only [ne_eq, h, not_false_eq_true, if_true]; split_ifs <;> omega
  · split_ifs <;> omega
  · by_cases h : s = ""
    · subst h; simp only [String.length_empty]; split_ifs <;> omega
    · simp only [ne_eq, h, not_false_eq_true, if_true]; split_ifs <;> omega

/-- C2 is contradicted by the code at this input: updating only the
title of a completed task whose completed_at is set (the status field
absent from the update) leaves the status completed yet clears
completed_at, because the source's elif treats an absent status like a
non-completed one, while the claim requires completed_at to stay set
and to be non-null exactly when the status is completed. -/
theorem update_task_title_only_clears_completed_at :
    ((update_task [completedReportTask] 1 { title := some ("renamed") } 1 60).1.map
        fun t => (t.status, t.completed_at)) = some (TaskStatus.completed, none) := by
  decide

/-- C1 is refuted at this input: in depDemoAfterTwo task 1 already
reaches task 3 through the edges 1 → 2 and 2 → 3, so adding the edge
3 → 1 closes a length-3 cycle; the claim requires that call to fail
and leave the edge set unchanged, yet it succeeds, extends the edge
set, and afterwards task 1 lies on a cycle. -/
theorem add_task_dependency_admits_longer_cycle :
    reaches depDemoAfterTwo.deps 3 1 3 = true ∧
    (add_task_dependency depDemoAfterTwo 3 1 7).1.isSome = true ∧
    (add_task_dependency depDemoAfterTwo 3 1 7).2.deps ≠ depDemoAfterTwo.deps ∧
    reaches (add_task_dependency depDemoAfterTwo 3 1 7).2.deps 3 1 1 = true := by
  decide

/-- A duplicate-free list whose members all equal one value has at most
one element. -/
theorem length_le_one_of_nodup_of_all_eq {l : List Nat} {v : Nat}
    (hnd : l.Nodup) (hall : ∀ x ∈ l, x = v) : l.length ≤ 1 := by
  match l with
  | [] => simp
  | [_] => simp
  | a :: b :: t =>
    exfalso
    have ha := hall a (by simp)
    have hb := hall b (by simp)
    have hne : a ≠ b := by
      have hcons := List.nodup_cons.mp hnd
      exact fun h => hcons.1 (h ▸ List.mem_cons_self b t)
    exact hne (ha.trans hb.symm)

/-- add_task_dependency never changes the tasks table. -/
theorem add_task_dependency_tasks_eq (st : DBState) (a b u : Nat) :
    (add_task_dependency st a b u).2.tasks = st.tasks := by
  simp only [add_task_dependency]
  split_ifs <;> rfl

/-- One add_task_dependency call preserves freedom from 2-cycles when
task ids are unique. -/
theorem add_task_dependency_preserves_noTwoCycle (st : DBState) (a b u : Nat)
    (hid : tasksHaveDistinctIds st.tasks) (h2 : noTwoCycle st.deps) :
    noTwoCycle (add_task_dependency st a b u).2.deps := by
  simp only [add_task_dependency]
  split_ifs with hlen hrev
  · exact h2
  · exact h2
  · have hab : a ≠ b := by
      intro hab
      subst hab
      apply hlen
      intro hlen2
      have hsub : ((st.tasks.filter fun t =>
          (t.id == a || t.id == a) && t.user_id == u).map Task.id).Sublist
          (st.tasks.map Task.id) :=
        (List.filter_sublist st.tasks).map Task.id
      have hnd := hid.sublist hsub
      have hall : ∀ x ∈ (st.tasks.filter fun t =>
          (t.id == a || t.id == a) && t.user_id == u).map Task.id, x = a := by
        intro x hx
        obtain ⟨t, ht, rfl⟩ := List.mem_map.mp hx
        have := List.of_mem_filter ht
        simp only [Bool.and_eq_true, Bool.or_eq_true, beq_iff_eq, or_self] at this
        exact this.1
      have := length_le_one_of_nodup_of_all_eq hnd hall
      rw [List.length_map] at this
      omega
    simp only [_would_create_circular_dependency, List.any_eq_true, Bool.and_eq_true,
      beq_iff_eq, not_exists, not_and] at hrev
    intro d hd hrevmem
    rcases List.mem_append.mp hd with hd1 | hd1
    · rcases List.mem_append.mp hrevmem with hr1 | hr1
      · exact h2 d hd1 hr1
      · have hdval : d.depends_on_id = a ∧ d.task_id = b := by
          have := List.mem_singleton.mp hr1
          constructor
          · exact congrArg TaskDependency.task_id this
          · exact congrArg TaskDependency.depends_on_id this
        exact hrev d hd1 hdval.2 hdval.1
    · have hdval := List.mem_singleton.mp hd1
      subst hdval
      rcases List.mem_append.mp hrevmem with hr1 | hr1
      · exact hrev _ hr1 rfl rfl
      · have := List.mem_singleton.mp hr1
        have hba : b = a := congrArg TaskDependency.task_id this
        exact hab hba.symm

/-- C1 (amended): add_task_dependency rejects an insertion only on an
ownership failure or a direct reverse edge, a rejected call leaves the
store unchanged, and over every sequence of insertions from a store
with unique task ids and no mutually inverse edges the edge set stays
free of 2-cycles (mutually inverse pairs and self-loops) — the only
cycles the check prevents, longer ones being admitted as the
counterexample shows. -/
theorem add_task_dependency_rejects_only_direct_reverse (st : DBState)
    (reqs : List (Nat × Nat × Nat)) (hid : tasksHaveDistinctIds st.tasks)
    (h2 : noTwoCycle st.deps) :
    noTwoCycle (runAddDependencies st reqs).deps ∧
    ∀ a b u, (add_task_dependency st a b u).1 = none →
      (add_task_dependency st a b u).2 = st := by
  constructor
  · unfold runAddDependencies
    induction reqs generalizing st with
    | nil => exact h2
    | cons r rs ih =>
      have hid2 : tasksHaveDistinctIds (add_task_dependency st r.1 r.2.1 r.2.2).2.tasks := by
        rw [add_task_dependency_tasks_eq]; exact hid
      exact ih _ hid2 (add_task_dependency_preserves_noTwoCycle st r.1 r.2.1 r.2.2 hid h2)
  · intro a b u hnone
    simp only [add_task_dependency] at hnone ⊢
    split_ifs at hnone ⊢ <;> simp_all

/-- Witness for the amended C1 theorem at the concrete three-task store
with one insertion request. -/
theorem add_task_dependency_rejects_only_direct_reverse_witness :
    tasksHaveDistinctIds depDemoStore.tasks ∧ noTwoCycle depDemoStore.deps ∧
    (noTwoCycle (runAddDependencies depDemoStore [(1, 2, 7)]).deps ∧
      ∀ a b u, (add_task_dependency depDemoStore a b u).1 = none →
        (add_task_dependency depDemoStore a b u).2 = depDemoStore) :=
  ⟨by decide, by decide,
    add_task_dependency_rejects_only_direct_reverse depDemoStore [(1, 2, 7)]
      (by decide) (by decide)⟩

/-- C3 is refuted for the GrokService variant: when the AI completion
request itself fails, parse_natural_language_task does not catch the
exception — the call raises to its caller instead of returning the
claimed fallback. -/
theorem grok_parse_raises_on_transport_error :
    (GrokService.parse_natural_language_task ("Buy milk tomorrow")
      (AICallOutcome.transportError ("timeout"))).isOk = false := by
  rfl

/-- C3 (amended): for every input, when the AI call fails or its output
is malformed, EnhancedGrokService.parse_natural_language_task never
raises — it returns the fallback parse whose title is the first 100
characters of the input, priority medium, confidence 0.3 and reasoning
"Fallback parsing due to AI service error"; the GrokService variant
returns its fallback (the same truncated title and priority medium but
no confidence field) only for malformed content, while a failed AI
request propagates to its caller as an exception. -/
theorem parse_natural_language_task_fallback (task_input : String)
    (parseDT : String → Option Time) (ai : AICallOutcome ParsedTaskJson)
    (h : (∃ msg, ai = AICallOutcome.transportError msg) ∨
      ai = AICallOutcome.malformedContent) :
    EnhancedGrokService.parse_natural_language_task task_input parseDT ai
        = { title := task_input.take 100
            description := if task_input.length > 100 then some task_input else none
            priority := "medium"
            ai_confidence := (3 / 10 : ℚ)
            reasoning := "Fallback parsing due to AI service error" } ∧
    (ai = AICallOutcome.malformedContent →
      GrokService.parse_natural_language_task task_input ai
        = Except.ok
            { title := some (task_input.take 100)
              description := if task_input.length > 100 then some task_input else none
              priority := some ("medium") }) ∧
    (∀ msg, ai = AICallOutcome.transportError msg →
      GrokService.parse_natural_language_task task_input ai
        = Except.error ("AI service unavailable: " ++ msg)) := by
  rcases h with ⟨msg, rfl⟩ | rfl
  · exact ⟨rfl, fun hcontra => (by cases hcontra), fun m hm => (by cases hm; rfl)⟩
  · exact ⟨rfl, fun _ => rfl, fun m hm => (by cases hm)⟩

/-- Witness for the amended C3 theorem at a concrete input and a
malformed AI response. -/
theorem parse_natural_language_task_fallback_witness :
    ((∃ msg, (AICallOutcome.malformedContent : AICallOutcome ParsedTaskJson)
        = AICallOutcome.transportError msg) ∨
      (AICallOutcome.malformedContent : AICallOutcome ParsedTaskJson)
        = AICallOutcome.malformedContent) ∧
    EnhancedGrokService.parse_natural_language_task ("Buy milk tomorrow") (fun _ => none)
        AICallOutcome.malformedContent
      = { title := ("Buy milk tomorrow" : String).take 100
          description := if ("Buy milk tomorrow" : String).length > 100
            then some ("Buy milk tomorrow") else none
          priority := "medium"
          ai_confidence := (3 / 10 : ℚ)
          reasoning := "Fallback parsing due to AI service error" } :=
  ⟨Or.inr rfl,
    (parse_natural_language_task_fallback ("Buy milk tomorrow") (fun _ => none)
      AICallOutcome.malformedContent (Or.inr rfl)).1⟩

/-- Membership in a large-enough first page of get_user_tasks is exactly
owner scope plus the active filter conditions. -/
theorem mem_get_user_tasks_iff (db : List Task) (uid : Nat) (limit : Nat)
    (f : TaskFilters) (now : Time) (t : Task)
    (h : (get_user_tasks db uid 0 limit (some f) now).2 ≤ limit) :
    t ∈ (get_user_tasks db uid 0 limit (some f) now).1 ↔
      t ∈ db ∧ t.user_id = uid ∧ taskMatchesFilters f now t = true := by
  simp only [get_user_tasks] at h ⊢
  rw [List.drop_zero, List.take_of_length_le]
  · rw [(List.perm_insertionSort _ _).mem_iff, List.mem_filter, List.mem_filter]
    simp [and_assoc]
  · rw [List.length_insertionSort]
    exact h

/-- C6: at a fixed now, with the overdue filter active and the page
large enough (skip 0, total count within the limit), get_user_tasks
returns exactly the owner's tasks having a due date strictly before now
and a status other than completed; with the due_soon filter active it
returns exactly the owner's tasks having a due date at most seven days
after now and a status other than completed — the source's reading of
due within 7 days, which has no lower bound. -/
theorem get_user_tasks_overdue_and_due_soon_filters (db : List Task) (uid : Nat)
    (now : Time) (limit : Nat) (t : Task)
    (h1 : (get_user_tasks db uid 0 limit (some { overdue := true }) now).2 ≤ limit)
    (h2 : (get_user_tasks db uid 0 limit (some { due_soon := true }) now).2 ≤ limit) :
    (t ∈ (get_user_tasks db uid 0 limit (some { overdue := true }) now).1 ↔
      t ∈ db ∧ t.user_id = uid ∧ t.status ≠ TaskStatus.completed ∧
        ∃ d, t.due_date = some d ∧ d < now) ∧
    (t ∈ (get_user_tasks db uid 0 limit (some { due_soon := true }) now).1 ↔
      t ∈ db ∧ t.user_id = uid ∧ t.status ≠ TaskStatus.completed ∧
        ∃ d, t.due_date = some d ∧ d ≤ now + 7 * secondsPerDay) := by
  constructor
  · rw [mem_get_user_tasks_iff db uid limit _ now t h1]
    rcases hd : t.due_date with _ | d <;>
      (simp [taskMatchesFilters, hd]; try tauto)
  · rw [mem_get_user_tasks_iff db uid limit _ now t h2]
    rcases hd : t.due_date with _ | d <;>
      (simp [taskMatchesFilters, hd]; try tauto)

/-- Witness for the C6 theorem at the concrete five-task store: the
overdue pending task of user 1 is returned by both filters. -/
theorem get_user_tasks_overdue_and_due_soon_filters_witness :
    (get_user_tasks filterDemoDb 1 0 100 (some { overdue := true }) 100).2 ≤ 100 ∧
    (get_user_tasks filterDemoDb 1 0 100 (some { due_soon := true }) 100).2 ≤ 100 ∧
    overdueDemoTask
      ∈ (get_user_tasks filterDemoDb 1 0 100 (some { overdue := true }) 100).1 :=
  ⟨by decide, by decide,
    ((get_user_tasks_overdue_and_due_soon_filters filterDemoDb 1 100 100
        overdueDemoTask (by decide) (by decide)).1).mpr
      (by exact ⟨by decide, rfl, by decide, 10, rfl, by decide⟩)⟩

/-- An owner-scoped lookup finds nothing when no row has both the id and
the user. -/
theorem findTask_eq_none_of_unmatched {db : List Task} {task_id b : Nat}
    (hnone : ∀ t ∈ db, ¬(t.id = task_id ∧ t.user_id = b)) :
    findTask db task_id b = none := by
  rw [findTask, List.find?_eq_none]
  intro t ht
  simp only [Bool.and_eq_true, beq_iff_eq, not_and]
  intro h1 h2
  exact hnone t ht ⟨h1, h2⟩

/-- C7: when every row carrying a task id belongs to user a, a different
user b observes from get_task, update_task and delete_task exactly what
they observe on an id that exists nowhere — none, (none, unchanged
store) and (false, unchanged store) — so cross-owner access is
indistinguishable from absence and modifies no task. -/
theorem cross_owner_access_indistinguishable (db : List Task) (a b task_id ghost_id : Nat)
    (u : TaskUpdate) (now : Time)
    (hown : ∀ t ∈ db, t.id = task_id → t.user_id = a)
    (hb : b ≠ a)
    (hghost : ∀ t ∈ db, t.id ≠ ghost_id) :
    get_task db task_id b = none ∧
    get_task db task_id b = get_task db ghost_id b ∧
    update_task db task_id u b now = (none, db) ∧
    update_task db task_id u b now = update_task db ghost_id u b now ∧
    delete_task db task_id b = (false, db) ∧
    delete_task db task_id b = delete_task db ghost_id b := by
  have hf1 : findTask db task_id b = none :=
    findTask_eq_none_of_unmatched fun t ht hc => hb (hc.2.symm.trans (hown t ht hc.1))
  have hf2 : findTask db ghost_id b = none :=
    findTask_eq_none_of_unmatched fun t ht hc => hghost t ht hc.1
  refine ⟨hf1, ?_, ?_, ?_, ?_, ?_⟩ <;>
    simp only [get_task, update_task, delete_task, hf1, hf2]

/-- Witness for the C7 theorem: user 2 probing user 1's task 1 and the
absent id 99 in a one-task store. -/
theorem cross_owner_access_indistinguishable_witness :
    (∀ t ∈ [completedReportTask], t.id = 1 → t.user_id = 1) ∧ (2 ≠ 1) ∧
    (∀ t ∈ [completedReportTask], t.id ≠ 99) ∧
    (get_task [completedReportTask] 1 2 = none ∧
      get_task [completedReportTask] 1 2 = get_task [completedReportTask] 99 2 ∧
      update_task [completedReportTask] 1 {} 2 0 = (none, [completedReportTask]) ∧
      update_task [completedReportTask] 1 {} 2 0 = update_task [completedReportTask] 99 {} 2 0 ∧
      delete_task [completedReportTask] 1 2 = (false, [completedReportTask]) ∧
      delete_task [completedReportTask] 1 2 = delete_task [completedReportTask] 99 2) :=
  ⟨by decide, by decide, by decide,
    cross_owner_access_indistinguishable [completedReportTask] 1 2 1 99 {} 0
      (by decide) (by decide) (by decide)⟩

/-- C8: optimize_task_scheduling leaves the store untouched whenever the
AI call raises (the exception is caught, the function still returns) or
the response carries no suggested time slot; conversely any change to
the store can only happen on a response that does carry one. -/
theorem optimize_task_scheduling_writes_only_present_slot (db : List Task)
    (ai : Except String OptimizationData) (task_id user_id : Nat) (now : Time) :
    ((∀ o, ai = Except.ok o → o.suggested_time_slot = none) →
        optimize_task_scheduling db ai task_id user_id now = db) ∧
    (optimize_task_scheduling db ai task_id user_id now ≠ db →
      ∃ o slot, ai = Except.ok o ∧ o.suggested_time_slot = some slot) := by
  constructor
  · intro h
    rcases hg : get_task db task_id user_id with _ | t
    · simp only [optimize_task_scheduling, hg]
    · rcases hai : ai with e | o
      · simp only [optimize_task_scheduling, hg, hai]
      · simp only [optimize_task_scheduling, hg, hai, h o hai]
  · intro hne
    rcases hg : get_task db task_id user_id with _ | t
    · simp only [optimize_task_scheduling, hg] at hne
      exact absurd rfl hne
    · rcases hai : ai with e | o
      · simp only [optimize_task_scheduling, hg, hai] at hne
        exact absurd rfl hne
      · rcases hslot : o.suggested_time_slot with _ | slot
        · simp only [optimize_task_scheduling, hg, hai, hslot] at hne
          exact absurd rfl hne
        · exact ⟨o, slot, rfl, hslot⟩

/-- Witness for the C8 theorem: an AI response without a suggested slot
leaves the one-task store unchanged. -/
theorem optimize_task_scheduling_writes_only_present_slot_witness :
    optimize_task_scheduling [completedReportTask] (Except.ok {}) 1 1 0
      = [completedReportTask] :=
  (optimize_task_scheduling_writes_only_present_slot [completedReportTask]
      (Except.ok {}) 1 1 0).1 (fun o ho => (by cases ho; rfl))

/-- C9 is refuted at this input: user 2's AI completion request fails,
yet generate_schedule_optimization swallows the exception and returns
its fallback dict, so the loop applies no suggestion for user 2, still
commits and counts the user as optimized, and the job reports 3 of 3 —
not the 2 of 3 processed-versus-total the claim requires; users 1 and
3 do receive their suggested time slots and user 2's task is left
unchanged. -/
theorem optimize_user_schedules_counts_failed_user :
    jobDemoAi 2 = AICallOutcome.transportError ("AI request failed") ∧
    (optimize_user_schedules jobDemoAi [1, 2, 3] jobDemoDb).1.map
        Task.ai_suggested_time_slot = [some 1000, none, some 1000] ∧
    (optimize_user_schedules jobDemoAi [1, 2, 3] jobDemoDb).2.1 = 3 ∧
    (optimize_user_schedules jobDemoAi [1, 2, 3] jobDemoDb).2.2 = 3 := by
  decide

/-- A user whose AI call fails leaves the store as it was but is still
counted whenever they have matching tasks, because the fallback dict
carries no optimized_schedule and the loop body completes normally. -/
theorem optimizeUserStep_ai_failure (ai : Nat → AICallOutcome GrokScheduleResponse)
    (u : Nat)
    (hfail : (∃ msg, ai u = AICallOutcome.transportError msg) ∨
      ai u = AICallOutcome.malformedContent)
    (acc : List Task × Nat) :
    optimizeUserStep ai acc u
      = (acc.1, acc.2 + if (userPendingTasks acc.1 u).isEmpty then 0 else 1) := by
  have hopt : (GrokService.generate_schedule_optimization (ai u)).optimized_schedule
      = none := by
    rcases hfail with ⟨msg, hm⟩ | hm <;> rw [hm] <;> rfl
  by_cases h : (userPendingTasks acc.1 u).isEmpty
  · simp [optimizeUserStep, h]
  · simp [optimizeUserStep, h, hopt]

/-- The job store after a loop segment does not depend on the running
count, and the count accumulates additively. -/
theorem foldl_optimizeUserStep_shift (ai : Nat → AICallOutcome GrokScheduleResponse)
    (l : List Nat) : ∀ (s : List Task) (c : Nat),
    l.foldl (optimizeUserStep ai) (s, c)
      = ((l.foldl (optimizeUserStep ai) (s, 0)).1,
          c + (l.foldl (optimizeUserStep ai) (s, 0)).2) := by
  induction l with
  | nil => intro s c; rfl
  | cons a t ih =>
    intro s c
    rw [List.foldl_cons, List.foldl_cons]
    by_cases h : (userPendingTasks s a).isEmpty
    · have h1 : ∀ k, optimizeUserStep ai (s, k) a = (s, k) := by
        intro k; simp [optimizeUserStep, h]
      rw [h1, h1]
      exact ih s c
    · have h1 : ∀ k, optimizeUserStep ai (s, k) a
          = (((GrokService.generate_schedule_optimization (ai a)).optimized_schedule.getD
                []).foldl (applySuggestion ((userPendingTasks s a).map Task.id)) s,
              k + 1) := by
        intro k; simp [optimizeUserStep, h]
      rw [h1, h1, ih _ (c + 1), ih _ (0 + 1)]
      simp only [Prod.mk.injEq, true_and]
      omega

/-- C9 (amended): the job always reports a total equal to the number of
users and propagates no exception; a user whose AI call fails is
isolated — the final store equals that of the run without them, so
every other user still receives their committed suggested time slot
and the failed user's tasks stay unchanged — but the failure is
swallowed inside generate_schedule_optimization rather than reaching
the loop's except clause, so the user is still counted as optimized
whenever they had matching tasks: the reported count exceeds the
without-them count by exactly that one. -/
theorem optimize_user_schedules_isolates_but_counts_failures
    (ai : Nat → AICallOutcome GrokScheduleResponse)
    (l1 l2 : List Nat) (u : Nat) (db : List Task)
    (hfail : (∃ msg, ai u = AICallOutcome.transportError msg) ∨
      ai u = AICallOutcome.malformedContent) :
    (optimize_user_schedules ai (l1 ++ u :: l2) db).2.2 = l1.length + l2.length + 1 ∧
    (optimize_user_schedules ai (l1 ++ u :: l2) db).1
        = (optimize_user_schedules ai (l1 ++ l2) db).1 ∧
    (optimize_user_schedules ai (l1 ++ u :: l2) db).2.1
        = (optimize_user_schedules ai (l1 ++ l2) db).2.1
          + (if (userPendingTasks (l1.foldl (optimizeUserStep ai)
                  ((db, 0) : List Task × Nat)).1 u).isEmpty
              then 0 else 1) := by
  rcases h1 : l1.foldl (optimizeUserStep ai) ((db, 0) : List Task × Nat) with ⟨s1, c1⟩
  have hstep := optimizeUserStep_ai_failure ai u hfail (s1, c1)
  refine ⟨?_, ?_, ?_⟩
  · simp [optimize_user_schedules]
    omega
  · simp only [optimize_user_schedules]
    rw [List.foldl_append, List.foldl_append, h1, List.foldl_cons, hstep,
      foldl_optimizeUserStep_shift ai l2 s1 _, foldl_optimizeUserStep_shift ai l2 s1 c1]
  · simp only [optimize_user_schedules, h1]
    rw [List.foldl_append, List.foldl_append, h1, List.foldl_cons, hstep,
      foldl_optimizeUserStep_shift ai l2 s1 _, foldl_optimizeUserStep_shift ai l2 s1 c1]
    by_cases hemp : (userPendingTasks s1 u).isEmpty <;> (simp [hemp]; try omega)

/-- Witness for the amended C9 theorem: three users whose middle AI
call fails; the run matches the two-user run on the final store, the
count exceeds it by one for the counted failed user, and the total is
3. -/
theorem optimize_user_schedules_isolates_but_counts_failures_witness :
    ((∃ msg, jobDemoAi 2 = AICallOutcome.transportError msg) ∨
      jobDemoAi 2 = AICallOutcome.malformedContent) ∧
    ((optimize_user_schedules jobDemoAi ([1] ++ 2 :: [3]) jobDemoDb).2.2 = 3 ∧
      (optimize_user_schedules jobDemoAi ([1] ++ 2 :: [3]) jobDemoDb).1
        = (optimize_user_schedules jobDemoAi ([1] ++ [3]) jobDemoDb).1 ∧
      (optimize_user_schedules jobDemoAi ([1] ++ 2 :: [3]) jobDemoDb).2.1
        = (optimize_user_schedules jobDemoAi ([1] ++ [3]) jobDemoDb).2.1
          + (if (userPendingTasks (([1].foldl (optimizeUserStep jobDemoAi)
                  ((jobDemoDb, 0) : List Task × Nat)).1) 2).isEmpty
              then 0 else 1)) :=
  ⟨Or.inl ⟨"AI request failed", rfl⟩,
    optimize_user_schedules_isolates_but_counts_failures jobDemoAi [1] [3] 2 jobDemoDb
      (Or.inl ⟨"AI request failed", rfl⟩)⟩

/-- Filtering by the negated predicate counts the complement. -/
theorem length_filter_bnot {α : Type} (l : List α) (p : α → Bool) :
    (l.filter fun a => !(p a)).length = l.length - (l.filter p).length := by
  induction l with
  | nil => rfl
  | cons a t ih =>
    have hle := List.length_filter_le p t
    by_cases h : p a <;>
      (simp [List.filter_cons, h, ih]; try omega)

/-- C10: the analytics report counts pending as total minus completed —
exactly the window tasks whose status is not completed, cancelled and
on-hold ones included — and its completion rate is
completed / total * 100 when any task exists in the window, and 0 (not
an error) when none does. -/
theorem productivity_analytics_pending_and_rate (db : List Task) (uid days : Nat)
    (now : Time) :
    (get_productivity_analytics db uid days now).pending_tasks
        = (get_productivity_analytics db uid days now).total_tasks
          - (get_productivity_analytics db uid days now).completed_tasks ∧
    (get_productivity_analytics db uid days now).pending_tasks
        = ((analyticsWindow db uid days now).filter
            fun t => t.status != TaskStatus.completed).length ∧
    ((get_productivity_analytics db uid days now).total_tasks ≠ 0 →
      (get_productivity_analytics db uid days now).completion_rate
        = ((get_productivity_analytics db uid days now).completed_tasks : ℚ)
          / ((get_productivity_analytics db uid days now).total_tasks : ℚ) * 100) ∧
    ((get_productivity_analytics db uid days now).total_tasks = 0 →
      (get_productivity_analytics db uid days now).completion_rate = 0) := by
  refine ⟨rfl, ?_, ?_, ?_⟩
  · have hc := length_filter_bnot (analyticsWindow db uid days now)
      (fun t => t.status == TaskStatus.completed)
    simp only [get_productivity_analytics]
    simpa [bne] using hc.symm
  · intro h
    simp only [get_productivity_analytics] at h ⊢
    rw [if_pos (Nat.pos_of_ne_zero h)]
  · intro h
    simp only [get_productivity_analytics] at h ⊢
    rw [if_neg (by omega)]

/-- Witness for the C10 theorem at the three-task store: user 1's window
holds one task, so the rate formula applies with total 1. -/
theorem productivity_analytics_pending_and_rate_witness :
    (get_productivity_analytics jobDemoDb 1 7 100).total_tasks ≠ 0 ∧
    (get_productivity_analytics jobDemoDb 1 7 100).completion_rate
      = ((get_productivity_analytics jobDemoDb 1 7 100).completed_tasks : ℚ)
        / ((get_productivity_analytics jobDemoDb 1 7 100).total_tasks : ℚ) * 100 :=
  ⟨by decide,
    (productivity_analytics_pending_and_rate jobDemoDb 1 7 100).2.2.1 (by decide)⟩

end FlowMind
